import Mathlib

/-!
Verification development for the conancrates package registry.

The definitions below are a shallow embedding of the Django application in
`packages/`: the catalog tables (`Package`, `PackageVersion`, `BinaryPackage`)
become lists of records, each view function becomes a pure Lean function from
a catalog state (and request parameters) to a new catalog state and a
response value, and every ORM `.save()` becomes an explicit row update.

Modelling conventions, stated once:
* Row lists are kept newest-first, so that Django's `Meta.ordering =
  ['-created_at']` followed by `.first()` corresponds to `List.head?` after
  `List.filter`; row creation is a `cons`.
* `request.GET.get(k, default)` is `Option.getD`; a JSON dict field that may
  be missing is an `Option`.
* External collaborators (hashlib sha256/md5, the conanfile regex parser, the
  conaninfo extractor inside the uploaded tarball) are abstract function
  parameters bundled in `UploadExt`; the registry code only pipes their
  results through, so nothing about their internals is assumed.
* Blob storage is recorded as the stored blob key (`binary_file`); reading a
  blob during bundle construction is recorded as one occurrence of that key
  in the list of archive reads.
-/

namespace ConanCrates

/-- `splitFirstAux sep l` splits `l` at the first occurrence of `sep`,
returning `none` when `sep` does not occur; this is Python's
`str.split(sep, 1)` together with the `sep not in s` test. -/
def splitFirstAux (sep : Char) : List Char → Option (List Char × List Char)
  | [] => none
  | c :: cs =>
    if c = sep then some ([], cs)
    else
      match splitFirstAux sep cs with
      | none => none
      | some (a, b) => some (c :: a, b)

/-- Python `s.split(sep, 1)` on strings, `none` when `sep` is absent. -/
def splitFirst (sep : Char) (s : String) : Option (String × String) :=
  match splitFirstAux sep s.toList with
  | none => none
  | some (a, b) => some (String.mk a, String.mk b)

/-- Characters of `l` strictly before the first occurrence of `sep`. -/
def takeUntilChar (sep : Char) : List Char → List Char
  | [] => []
  | c :: cs => if c = sep then [] else c :: takeUntilChar sep cs

/-- Python `s.split('#')[0]`: drop a trailing `#revision` suffix
(download_views.py line 154). -/
def stripRevision (s : String) : String :=
  String.mk (takeUntilChar '#' s.toList)

/-- Update the first element of the list satisfying `p` by `f`; this is a
Django `obj.save()` of a row previously fetched by primary key. -/
def updateFirst (p : α → Bool) (f : α → α) : List α → List α
  | [] => []
  | x :: xs => if p x then f x :: xs else x :: updateFirst p f xs

/-- One node of the stored dependency graph, as consumed by the views:
`node.get('ref', '')` and `node.get('package_id', 'unknown')`
(download_views.py lines 148, 155). An absent JSON key is `none`. -/
structure GraphNode where
  ref : Option String
  package_id : Option String
deriving DecidableEq

/-- `packages.models.package.Package` — the fields touched by the modelled
views (name, descriptive metadata, download counter). -/
structure Package where
  name : String
  description : String
  license : String
  download_count : Nat
deriving DecidableEq

/-- `packages.models.package_version.PackageVersion`, with its foreign key to
`Package` denormalised to the owning package's unique `name`. -/
structure PackageVersion where
  pkgName : String
  version : String
  recipe_content : String
  description : String
deriving DecidableEq

/-- `packages.models.binary_package.BinaryPackage`, foreign key denormalised
to `(pkgName, version)`. `dependency_graph` is the node map of the stored
JSON graph (`graph.get('graph', \x7b\x7d).get('nodes', \x7b\x7d)`) in its
stored iteration order; `none` models a falsy (empty) stored dict.
`binary_file` is the stored blob key, `none` when no file was uploaded. -/
structure BinaryPackage where
  pkgName : String
  version : String
  package_id : String
  os : String
  arch : String
  compiler : String
  compiler_version : String
  build_type : String
  dependency_graph : Option (List (String × GraphNode))
  binary_file : Option String
  file_size : Nat
  sha256 : String
  download_count : Nat
deriving DecidableEq

/-- The catalog store: the three tables the modelled views read and write.
Each list is newest-row-first (see the module conventions above). -/
structure Catalog where
  packages : List Package
  versions : List PackageVersion
  binaries : List BinaryPackage
deriving DecidableEq

/-- The primary-key predicate of the package row fetched by name. -/
def pkgKey (n : String) (p : Package) : Bool :=
  p.name == n

/-- The primary-key predicate of the version row fetched by
`(package_name, version)`. -/
def verKey (n v : String) (pv : PackageVersion) : Bool :=
  pv.pkgName == n && pv.version == v

/-- The primary-key predicate of the binary row fetched by
`(package_name, version, package_id)`. -/
def binKey (n v pid : String) (b : BinaryPackage) : Bool :=
  b.pkgName == n && b.version == v && b.package_id == pid

/-- `BinaryPackage.get_config_string` (binary_package.py lines 48-58). -/
def get_config_string (b : BinaryPackage) : String :=
  let parts : List String :=
    (if b.os ≠ "" then ["OS: " ++ b.os] else []) ++
    (if b.arch ≠ "" then ["Arch: " ++ b.arch] else []) ++
    (if b.compiler ≠ "" then ["Compiler: " ++ b.compiler ++ " " ++ b.compiler_version] else []) ++
    (if b.build_type ≠ "" then ["Build: " ++ b.build_type] else [])
  String.intercalate ", " parts

/-- `Package.objects.get / get_object_or_404(Package, name=...)`. -/
def findPackage (cat : Catalog) (name : String) : Option Package :=
  cat.packages.find? (pkgKey name)

/-- `get_object_or_404(PackageVersion, package=..., version=...)`. -/
def findVersion (cat : Catalog) (name version : String) : Option PackageVersion :=
  cat.versions.find? (verKey name version)

/-- `BinaryPackage.objects.get(package_version__package__name=...,
package_version__version=..., package_id=...)` (download_views.py
lines 158-163); under the catalog's `package_id` uniqueness there is at most
one matching row. -/
def findDepBinary (cat : Catalog) (n v pid : String) : Option BinaryPackage :=
  cat.binaries.find? (binKey n v pid)

/-- Exact match of one binary row against a fully-determined platform request
(the `package_version.binaries.filter(os=..., ..., build_type=...)` of
download_views.py lines 107-113, with the version-membership join made
explicit). -/
def matchesConfig (b : BinaryPackage) (n v os arch comp cv bt : String) : Bool :=
  b.pkgName == n && b.version == v && b.os == os && b.arch == arch &&
    b.compiler == comp && b.compiler_version == cv && b.build_type == bt

/-- The binary rows of `(n, v)` exactly matching the five (already
defaulted) platform dimensions — the queryset both bundle views build
before testing `.exists()` and taking `.first()`. -/
def configFilter (cat : Catalog) (n v os arch comp cv bt : String) : List BinaryPackage :=
  cat.binaries.filter (fun b => matchesConfig b n v os arch comp cv bt)

/-- All binary rows of a `(package, version)` pair regardless of platform
(`package_version.binaries.all()`, download_views.py line 740). -/
def list_binaries_for_version (cat : Catalog) (n v : String) : List BinaryPackage :=
  cat.binaries.filter (fun b => b.pkgName == n && b.version == v)

/-- The per-node triple extraction shared verbatim by `bundle_preview`
(download_views.py lines 142-155) and `download_bundle` (lines 261-274):
skip the root node `"0"`, skip a reference without `'/'`, split the
reference at the first `'/'`, strip a `#revision` suffix from the version,
and default an absent binary id to `"unknown"`. -/
def parseDepNode (p : String × GraphNode) : Option (String × String × String) :=
  if p.1 == "0" then none
  else
    match splitFirst '/' (p.2.ref.getD "") with
    | none => none
    | some (dep_name, dep_version_with_hash) =>
      some (dep_name, stripRevision dep_version_with_hash, p.2.package_id.getD "unknown")

/-- The flat dependency-triple list a stored graph denotes: the sequence of
`(name, version, binary_id)` triples the two bundle loops iterate, in stored
order. -/
def flatten (nodes : List (String × GraphNode)) : List (String × String × String) :=
  nodes.filterMap parseDepNode

/-- The triple a well-formed (slash-containing reference) non-root node
contributes; total companion of `parseDepNode` used to state order/shape
theorems. -/
def extractTriple (p : String × GraphNode) : String × String × String :=
  match splitFirst '/' (p.2.ref.getD "") with
  | none => ("", "", p.2.package_id.getD "unknown")
  | some (n, vh) => (n, stripRevision vh, p.2.package_id.getD "unknown")

/-- Boolean well-formedness of a graph: every non-root node carries a
slash-containing reference and a present binary id. -/
def wellFormedNodes (nodes : List (String × GraphNode)) : Bool :=
  nodes.all (fun p =>
    p.1 == "0" || ((p.2.ref.getD "").toList.contains '/' && p.2.package_id.isSome))

/-- The five platform dimensions of a request, after defaulting
(download_views.py lines 84-88). -/
structure Platform where
  os : String
  arch : String
  compiler : String
  compiler_version : String
  build_type : String
deriving DecidableEq

/-- One item of `preview_data['files']` (download_views.py lines 126-133,
165-172, 178-186). `ftype` is the JSON key `type`. -/
structure FileEntry where
  package : String
  version : String
  ftype : String
  package_id : String
  config : String
  size : Nat
  note : Option String
deriving DecidableEq

/-- The `preview_data` JSON object of `bundle_preview` together with the HTTP
status it is served with (200, or 404 when no binary matches). -/
structure PreviewData where
  package : String
  version : String
  platform : Platform
  files : List FileEntry
  total_size : Nat
  file_count : Nat
  resolution_method : String
  error : Option String
  status : Nat
deriving DecidableEq

/-- The platform a request denotes after `request.GET.get(key, default)`
defaulting (download_views.py lines 84-88 and 199-204). -/
def defaultedPlatform (os? arch? compiler? compiler_version? build_type? : Option String) :
    Platform :=
  ⟨os?.getD "Linux", arch?.getD "x86_64", compiler?.getD "gcc",
    compiler_version?.getD "11", build_type?.getD "Release"⟩

/-- The "No binary found for name/version with settings: os/arch/c-cv/bt"
message shared by both bundle views (download_views.py lines 117-119,
233-235). -/
def noBinaryMessage (n v : String) (pf : Platform) : String :=
  "No binary found for " ++ n ++ "/" ++ v ++ " with settings: " ++
    pf.os ++ "/" ++ pf.arch ++ "/" ++ pf.compiler ++ "-" ++ pf.compiler_version ++
    "/" ++ pf.build_type

/-- The `note` text of a missing-dependency entry (download_views.py
line 185). -/
def missingNote (n v pid : String) : String :=
  "Missing dependency: " ++ n ++ "/" ++ v ++ " with package_id " ++ pid

/-- One iteration of the `bundle_preview` dependency loop (download_views.py
lines 142-186): parse the node and either skip it, append a matched
dependency entry while bumping `total_size` and `file_count`, or append a
missing-dependency placeholder (size 0, config "Unknown", note) without
touching the totals. -/
def previewStep (cat : Catalog) (acc : PreviewData) (p : String × GraphNode) : PreviewData :=
  match parseDepNode p with
  | none => acc
  | some (dep_name, dep_version, dep_package_id) =>
    match findDepBinary cat dep_name dep_version dep_package_id with
    | some dep_binary =>
      { acc with
        files := acc.files ++
          [⟨dep_name, dep_version, "dependency", dep_package_id,
            get_config_string dep_binary, dep_binary.file_size, none⟩],
        total_size := acc.total_size + dep_binary.file_size,
        file_count := acc.file_count + 1 }
    | none =>
      { acc with
        files := acc.files ++
          [⟨dep_name, dep_version, "dependency", dep_package_id, "Unknown", 0,
            some (missingNote dep_name dep_version dep_package_id)⟩] }

/-- The file entry one graph node contributes to the preview (the body of
`previewStep` without the accumulator). -/
def previewEntry (cat : Catalog) (p : String × GraphNode) : Option FileEntry :=
  match parseDepNode p with
  | none => none
  | some (dep_name, dep_version, dep_package_id) =>
    match findDepBinary cat dep_name dep_version dep_package_id with
    | some dep_binary =>
      some ⟨dep_name, dep_version, "dependency", dep_package_id,
        get_config_string dep_binary, dep_binary.file_size, none⟩
    | none =>
      some ⟨dep_name, dep_version, "dependency", dep_package_id, "Unknown", 0,
        some (missingNote dep_name dep_version dep_package_id)⟩

/-- The size a graph node contributes to the totals: `some size` only when
the node parses and its dependency binary exists in the catalog. -/
def previewFound (cat : Catalog) (p : String × GraphNode) : Option Nat :=
  match parseDepNode p with
  | none => none
  | some (dep_name, dep_version, dep_package_id) =>
    (findDepBinary cat dep_name dep_version dep_package_id).map (fun db => db.file_size)

/-- `bundle_preview` (download_views.py lines 75-188). The first component
of the result is the catalog after the request (the view performs no
`.save()`, so it is returned as received); `none` in the second component is
the `get_object_or_404` page for a missing package or version. -/
def bundle_preview (cat : Catalog) (package_name version : String)
    (os? arch? compiler? compiler_version? build_type? : Option String) :
    Catalog × Option PreviewData :=
  match findPackage cat package_name with
  | none => (cat, none)
  | some _ =>
  match findVersion cat package_name version with
  | none => (cat, none)
  | some _ =>
    let pf := defaultedPlatform os? arch? compiler? compiler_version? build_type?
    let binaries := configFilter cat package_name version pf.os pf.arch pf.compiler
      pf.compiler_version pf.build_type
    match binaries with
    | [] =>
      (cat, some
        { package := package_name, version := version, platform := pf, files := [],
          total_size := 0, file_count := 0, resolution_method := "error",
          error := some (noBinaryMessage package_name version pf), status := 404 })
    | binary :: _ =>
      let init : PreviewData :=
        { package := package_name, version := version, platform := pf,
          files := [⟨package_name, version, "main", binary.package_id,
            get_config_string binary, binary.file_size, none⟩],
          total_size := binary.file_size, file_count := 1,
          resolution_method := "stored_graph", error := none, status := 200 }
      let nodes := binary.dependency_graph.getD []
      (cat, some (nodes.foldl (previewStep cat) init))

/-- One item of `bundle_metadata['contents']` in `download_bundle`
(download_views.py lines 248-254, 285-291, 295-302). -/
structure BundleEntry where
  package : String
  version : String
  btype : String
  package_id : String
  config : String
  note : Option String
deriving DecidableEq

/-- The result of `download_bundle`: the `get_object_or_404` page, the 404
JSON error when no binary matches the platform, or the built bundle carrying
the metadata contents and the `binaries_to_bundle` list the archive loop
iterates. -/
inductive BundleResult where
  | pageNotFound : BundleResult
  | noBinary (message : String) (platform : Platform) : BundleResult
  | bundle (contents : List BundleEntry)
      (binaries_to_bundle : List (BinaryPackage × String × String)) : BundleResult
deriving DecidableEq

/-- Accumulator of the `download_bundle` dependency loop: the metadata
contents and the list of binaries to stream into the archive. -/
structure BundleAcc where
  contents : List BundleEntry
  binaries_to_bundle : List (BinaryPackage × String × String)
deriving DecidableEq

/-- One iteration of the `download_bundle` dependency loop
(download_views.py lines 261-302): a matched dependency is appended to both
`binaries_to_bundle` and the metadata; a missing one is appended to the
metadata only, with a note. -/
def bundleStep (cat : Catalog) (acc : BundleAcc) (p : String × GraphNode) : BundleAcc :=
  match parseDepNode p with
  | none => acc
  | some (dep_name, dep_version, dep_package_id) =>
    match findDepBinary cat dep_name dep_version dep_package_id with
    | some dep_binary =>
      { contents := acc.contents ++
          [⟨dep_name, dep_version, "dependency", dep_package_id,
            get_config_string dep_binary, none⟩],
        binaries_to_bundle := acc.binaries_to_bundle ++ [(dep_binary, dep_name, dep_version)] }
    | none =>
      { acc with
        contents := acc.contents ++
          [⟨dep_name, dep_version, "dependency", dep_package_id, "Unknown",
            some (missingNote dep_name dep_version dep_package_id ++ " - not included in bundle")⟩] }

/-- The metadata entry one graph node contributes to the bundle. -/
def bundleEntry (cat : Catalog) (p : String × GraphNode) : Option BundleEntry :=
  match parseDepNode p with
  | none => none
  | some (dep_name, dep_version, dep_package_id) =>
    match findDepBinary cat dep_name dep_version dep_package_id with
    | some dep_binary =>
      some ⟨dep_name, dep_version, "dependency", dep_package_id,
        get_config_string dep_binary, none⟩
    | none =>
      some ⟨dep_name, dep_version, "dependency", dep_package_id, "Unknown",
        some (missingNote dep_name dep_version dep_package_id ++ " - not included in bundle")⟩

/-- The `binaries_to_bundle` element one graph node contributes: `some` only
for a node that parses and whose dependency binary exists. -/
def bundleMatch (cat : Catalog) (p : String × GraphNode) :
    Option (BinaryPackage × String × String) :=
  match parseDepNode p with
  | none => none
  | some (dep_name, dep_version, dep_package_id) =>
    (findDepBinary cat dep_name dep_version dep_package_id).map
      (fun db => (db, dep_name, dep_version))

/-- `download_bundle` (download_views.py lines 191-391). No `.save()` occurs
in the view, so the catalog is returned as received. -/
def download_bundle (cat : Catalog) (package_name version : String)
    (os? arch? compiler? compiler_version? build_type? : Option String) :
    Catalog × BundleResult :=
  match findPackage cat package_name with
  | none => (cat, .pageNotFound)
  | some _ =>
  match findVersion cat package_name version with
  | none => (cat, .pageNotFound)
  | some _ =>
    let pf := defaultedPlatform os? arch? compiler? compiler_version? build_type?
    let binaries := configFilter cat package_name version pf.os pf.arch pf.compiler
      pf.compiler_version pf.build_type
    match binaries with
    | [] => (cat, .noBinary (noBinaryMessage package_name version pf) pf)
    | binary :: _ =>
      let init : BundleAcc :=
        { contents := [⟨package_name, version, "main", binary.package_id,
            get_config_string binary, none⟩],
          binaries_to_bundle := [(binary, package_name, version)] }
      let nodes := binary.dependency_graph.getD []
      let acc := nodes.foldl (bundleStep cat) init
      (cat, .bundle acc.contents acc.binaries_to_bundle)

/-- The blob reads the archive loop performs (download_views.py
lines 340-367): one `binary_file.read()` per element of
`binaries_to_bundle` whose blob key is present, in order. -/
def bundleBlobReads (l : List (BinaryPackage × String × String)) : List String :=
  l.filterMap (fun t => t.1.binary_file)

/-- `binary.download_count += 1` (download_views.py line 31). -/
def bumpBinaryCount (b : BinaryPackage) : BinaryPackage :=
  { b with download_count := b.download_count + 1 }

/-- `package.download_count += 1` (download_views.py line 34). -/
def bumpPackageCount (p : Package) : Package :=
  { p with download_count := p.download_count + 1 }

/-- Response of `download_binary`: the `get_object_or_404` page, the 200
file stream, or the 404 plain-text placeholder served when the row exists
but no file was ever uploaded (download_views.py lines 59-72). -/
inductive BinaryDownloadResult where
  | pageNotFound : BinaryDownloadResult
  | fileStream (filename : String) : BinaryDownloadResult
  | placeholder404 : BinaryDownloadResult
deriving DecidableEq

/-- `download_binary` (download_views.py lines 22-72): look up package,
version and binary row, increment both download counters and persist them
(lines 30-35), and only then branch on whether a file exists (line 38).
Blob reads are assumed to succeed (the 500 fallback of lines 51-57 is not
modelled). -/
def download_binary (cat : Catalog) (package_name version binary_id : String) :
    Catalog × BinaryDownloadResult :=
  match findPackage cat package_name with
  | none => (cat, .pageNotFound)
  | some _ =>
  match findVersion cat package_name version with
  | none => (cat, .pageNotFound)
  | some _ =>
  match findDepBinary cat package_name version binary_id with
  | none => (cat, .pageNotFound)
  | some binary =>
    let cat1 : Catalog :=
      { cat with binaries :=
          updateFirst (binKey package_name version binary_id) bumpBinaryCount cat.binaries }
    let cat2 : Catalog :=
      { cat1 with packages :=
          updateFirst (pkgKey package_name) bumpPackageCount cat1.packages }
    match binary.binary_file with
    | some _ =>
      (cat2, .fileStream (package_name ++ "-" ++ version ++ "-" ++ binary_id ++ ".tar.gz"))
    | none => (cat2, .placeholder404)

/-- The `[settings]` block extracted from the uploaded tarball's
conaninfo.txt (simple_upload.py lines 69-133). -/
structure ConanSettings where
  os : String
  arch : String
  compiler : String
  compiler_version : String
  build_type : String
deriving DecidableEq

/-- The metadata `parse_conanfile` extracts from the recipe text by regex
(simple_upload.py lines 18-66): description, license and the `requires`
entries. -/
structure RecipeMeta where
  description : String
  license : String
  dependencies : List String
deriving DecidableEq

/-- External collaborators of the upload endpoint, passed as abstract
functions: hashlib's sha256 (applied to the whole payload — chunked
incremental hashing of simple_upload.py lines 243-247 equals hashing the
concatenation), the 16-hex-digit md5 prefix used for the fallback
package_id (line 231), the conanfile regex parser and the conaninfo
extractor. -/
structure UploadExt where
  sha256 : List Nat → String
  md5hex16 : String → String
  parse_meta : String → RecipeMeta
  extract_settings : List Nat → ConanSettings

/-- The multipart request of the upload endpoint: `FILES['recipe']` (decoded
text), `FILES['binary']` (raw bytes), and the POST fields; absent parts are
`none`. `dependency_graph` holds the node map of the successfully parsed
graph JSON; `none` covers both an absent field and a parse failure, which
the code maps to the empty dict (simple_upload.py lines 234-240). -/
structure UploadRequest where
  recipe : Option String
  binary : Option (List Nat)
  package_name : Option String
  version : Option String
  package_id : Option String
  dependency_graph : Option (List (String × GraphNode))
  conan_version : Option String

/-- Response of the upload endpoint: the success JSON carrying the resolved
package_id, sha256, size and settings (simple_upload.py lines 297-308), a
400 for missing input, or the 500 produced by the catch-all handler
(lines 310-316). -/
inductive UploadResult where
  | ok (package_id sha256 : String) (size : Nat) (settings : ConanSettings) : UploadResult
  | clientError (message : String) : UploadResult
  | serverError (message : String) : UploadResult
deriving DecidableEq

/-- The descriptive-field overwrite of an existing package on re-upload
(simple_upload.py lines 198-201). -/
def setPkgMeta (description license_info : String) (p : Package) : Package :=
  { p with description := description, license := license_info }

/-- The recipe overwrite of an existing version on re-upload
(simple_upload.py lines 219-223); the `conan_version` assignment of
line 222 sets a transient attribute that is not a model field and persists
nothing. -/
def setVerRecipe (recipe_content description : String) (pv : PackageVersion) : PackageVersion :=
  { pv with recipe_content := recipe_content, description := description }

/-- The binary-row overwrite after storing the blob (simple_upload.py
lines 265-275): blob key, checksum, size and stored graph. -/
def setBinUpload (blobName sha256v : String) (size : Nat)
    (g : Option (List (String × GraphNode))) (b : BinaryPackage) : BinaryPackage :=
  { b with
    binary_file := some blobName
    sha256 := sha256v
    file_size := size
    dependency_graph := g }

/-- `Package.objects.get_or_create(name=dep_name, defaults=...)` inside the
dependency-creation loop (simple_upload.py lines 283-286). -/
def ensureDepPackage (cat : Catalog) (dep_name : String) : Catalog :=
  match findPackage cat dep_name with
  | some _ => cat
  | none =>
    { cat with packages :=
        ⟨dep_name, "Dependency: " ++ dep_name, "Unknown", 0⟩ :: cat.packages }

/-- `PackageVersion.objects.get_or_create(package=dep_package,
version=dep_version)` inside the dependency-creation loop (simple_upload.py
lines 287-290). -/
def ensureDepVersion (cat : Catalog) (dep_name dep_version : String) : Catalog :=
  match findVersion cat dep_name dep_version with
  | some _ => cat
  | none =>
    { cat with versions := ⟨dep_name, dep_version, "", ""⟩ :: cat.versions }

/-- The dependency-creation loop (simple_upload.py lines 279-295). Entries
without `'/'` are skipped. For the first entry with `'/'` the dependency
Package and PackageVersion rows are upserted, and then
`Dependency.objects.get_or_create(package_version=..., depends_on=...)`
raises `FieldError` — the `Dependency` model (dependency.py) has no
`depends_on` field — so the loop aborts with the exception flag set. -/
def processDeps (cat : Catalog) : List String → Catalog × Bool
  | [] => (cat, false)
  | dep_str :: rest =>
    match splitFirst '/' dep_str with
    | none => processDeps cat rest
    | some (dep_name, dep_version) =>
      let cat1 := ensureDepPackage cat dep_name
      let cat2 := ensureDepVersion cat1 dep_name dep_version
      (cat2, true)

/-- `Package.objects.get_or_create(name=..., defaults=...)` followed by the
conditional descriptive update of simple_upload.py lines 189-201: create the
package if absent; on an existing package overwrite description and license
only when the parsed description is non-empty. -/
def upsert_package (cat : Catalog) (package_name description license_info : String) : Catalog :=
  match findPackage cat package_name with
  | none =>
    { cat with packages := ⟨package_name, description, license_info, 0⟩ :: cat.packages }
  | some _ =>
    if description ≠ "" then
      { cat with packages :=
          updateFirst (pkgKey package_name) (setPkgMeta description license_info) cat.packages }
    else cat

/-- `cat` already holds a binary row with this `package_id`
(binary_package.py line 10 declares the column `unique=True`). -/
def packageIdTaken (cat : Catalog) (pid : String) : Bool :=
  cat.binaries.any (fun b => b.package_id == pid)

/-- The blob key the upload stores the binary under (simple_upload.py
lines 266-271). -/
def blobKeyName (n v pid : String) : String :=
  n ++ "-" ++ v ++ "-" ++ pid ++ ".tar.gz"

/-- The row created by the binary `get_or_create` defaults (simple_upload.py
lines 250-263): configuration from the extracted settings, checksum, size
and graph; no blob yet, zero downloads. -/
def newBinaryRow (n v pid : String) (st : ConanSettings) (sh : String) (sz : Nat)
    (g : Option (List (String × GraphNode))) : BinaryPackage :=
  ⟨n, v, pid, st.os, st.arch, st.compiler, st.compiler_version, st.build_type,
    g, none, sz, sh, 0⟩

/-- `BinaryPackage.objects.get_or_create(package_version=..., package_id=...,
defaults=...)` (simple_upload.py lines 250-263) followed by the blob save and
row overwrite (lines 265-275). `none` is the `IntegrityError` raised by the
database when the freshly created row would duplicate a `package_id` that
already exists under another version. -/
def upsert_binary (cat : Catalog) (package_name version package_id : String)
    (settings : ConanSettings) (sha256v : String) (size : Nat)
    (g : Option (List (String × GraphNode))) : Option Catalog :=
  if ¬ (findDepBinary cat package_name version package_id).isSome ∧
      packageIdTaken cat package_id then none
  else if (findDepBinary cat package_name version package_id).isSome then
    some { cat with
      binaries := updateFirst (binKey package_name version package_id)
        (setBinUpload (blobKeyName package_name version package_id) sha256v size g)
        cat.binaries }
  else
    some { cat with
      binaries := updateFirst (binKey package_name version package_id)
        (setBinUpload (blobKeyName package_name version package_id) sha256v size g)
        (newBinaryRow package_name version package_id settings sha256v size g
          :: cat.binaries) }

/-- Steps of simple_upload.py after input validation (lines 180-308):
metadata and settings extraction, package upsert, version upsert (which
raises for a brand-new version, see `upload_package`), package_id
resolution with the md5 fallback, checksum computation, binary upsert and
the dependency-creation loop. Paths that raise end in the 500 handler with
the catalog as mutated so far (each `.save()`/`create` autocommits). -/
def ingest_validated (ext : UploadExt) (cat : Catalog) (recipe_content : String)
    (binary_bytes : List Nat) (package_name version : String)
    (package_id? : Option String)
    (dependency_graph : Option (List (String × GraphNode))) :
    Catalog × UploadResult :=
  let meta := ext.parse_meta recipe_content
  let description := meta.description
  let settings := ext.extract_settings binary_bytes
  let cat2 := upsert_package cat package_name description meta.license
  match findVersion cat2 package_name version with
  | none =>
    (cat2, .serverError "conan_version is an invalid keyword argument for this function")
  | some _ =>
    let cat3 :=
      { cat2 with versions :=
          updateFirst (verKey package_name version) (setVerRecipe recipe_content description) cat2.versions }
    let fallback_id := ext.md5hex16 (settings.os ++ "-" ++ settings.arch ++ "-" ++
      settings.compiler ++ "-" ++ settings.compiler_version ++ "-" ++ settings.build_type)
    let package_id :=
      match package_id? with
      | none => fallback_id
      | some pid => if pid = "" then fallback_id else pid
    let sha256v := ext.sha256 binary_bytes
    match upsert_binary cat3 package_name version package_id settings sha256v
        binary_bytes.length dependency_graph with
    | none =>
      (cat3, .serverError "UNIQUE constraint failed: packages_binarypackage.package_id")
    | some cat5 =>
      match processDeps cat5 meta.dependencies with
      | (cat6, true) =>
        (cat6, .serverError "Cannot resolve keyword depends_on into field")
      | (cat6, false) =>
        (cat6, .ok package_id sha256v binary_bytes.length settings)

/-- `upload_package` of simple_upload.py (lines 136-316), the unified ingest
endpoint: validate that both payloads and both POST identifiers are present
(lines 151-178), then run the ingest steps. Failure modes inside the `try`
block (surfaced as 500 by the catch-all handler of lines 310-316):

* a new `(package, version)` row is created with
  `defaults=\x7b..., 'conan_version': ...\x7d`, but `PackageVersion`
  (package_version.py) has no `conan_version` field, so Django's model
  constructor raises `TypeError` (lines 207-216);
* creating the binary row under an existing globally-unique `package_id`
  raises `IntegrityError` (binary_package.py line 10: `unique=True`);
* a parsed `requires` entry containing `'/'` reaches the broken
  `depends_on` call and raises `FieldError` (lines 292-295). -/
def upload_package (ext : UploadExt) (cat : Catalog) (req : UploadRequest) :
    Catalog × UploadResult :=
  match req.recipe with
  | none => (cat, .clientError "Missing recipe file (conanfile.py)")
  | some recipe_content =>
  match req.binary with
  | none => (cat, .clientError "Missing binary file (.tar.gz)")
  | some binary_bytes =>
  match req.package_name, req.version with
  | none, _ => (cat, .clientError "Missing required fields: package_name and version must be provided in POST data")
  | _, none => (cat, .clientError "Missing required fields: package_name and version must be provided in POST data")
  | some package_name, some version =>
  if package_name = "" ∨ version = "" then
    (cat, .clientError "Missing required fields: package_name and version must be provided in POST data")
  else
    ingest_validated ext cat recipe_content binary_bytes package_name version
      req.package_id req.dependency_graph

/-! ### Concrete catalog states and requests used to evaluate the model -/

/-- A binary row with the default platform configuration and empty remaining
fields; the concrete rows below are built from it. -/
def baseBin : BinaryPackage :=
  { pkgName := "", version := "", package_id := "", os := "Linux", arch := "x86_64",
    compiler := "gcc", compiler_version := "11", build_type := "Release",
    dependency_graph := none, binary_file := none, file_size := 0, sha256 := "",
    download_count := 0 }

/-- A zlib binary built for Windows, differing from the default request only
in the `os` dimension. -/
def zlibWin : BinaryPackage :=
  { baseBin with
      pkgName := "zlib"
      version := "1.2.13"
      package_id := "winid"
      os := "Windows" }

/-- Catalog holding `zlib/1.2.13` whose only binary is the Windows one. -/
def catC2 : Catalog :=
  { packages := [⟨"zlib", "", "", 0⟩], versions := [⟨"zlib", "1.2.13", "", ""⟩],
    binaries := [zlibWin] }

/-- A main binary whose stored graph has one non-root node carrying a
slash reference but no `package_id` key. -/
def appMainNoPid : BinaryPackage :=
  { baseBin with
      pkgName := "app"
      version := "1.0"
      package_id := "mainid"
      file_size := 100
      dependency_graph := some
        [("0", ⟨some "app/1.0", some "mainid"⟩), ("1", ⟨some "zlib/1.2.13", none⟩)] }

/-- Catalog for the absent-binary-id graph node scenario. -/
def catC3 : Catalog :=
  { packages := [⟨"app", "", "", 0⟩], versions := [⟨"app", "1.0", "", ""⟩],
    binaries := [appMainNoPid] }

/-- A main binary whose stored graph names the same dependency binary id in
two distinct nodes. -/
def appBin : BinaryPackage :=
  { baseBin with
      pkgName := "app"
      version := "1.0"
      package_id := "appid"
      binary_file := some "app.tar.gz"
      file_size := 100
      dependency_graph := some
        [("0", ⟨some "app/1.0", some "appid"⟩),
         ("1", ⟨some "zlib/1.2.13", some "zid"⟩),
         ("2", ⟨some "zlib/1.2.13", some "zid"⟩)] }

/-- The dependency binary the duplicated nodes resolve to. -/
def zlibBin : BinaryPackage :=
  { baseBin with
      pkgName := "zlib"
      version := "1.2.13"
      package_id := "zid"
      binary_file := some "zlib.tar.gz"
      file_size := 50 }

/-- Catalog with the duplicated-node graph and its dependency binary. -/
def catC4 : Catalog :=
  { packages := [⟨"app", "", "", 0⟩, ⟨"zlib", "", "", 0⟩],
    versions := [⟨"app", "1.0", "", ""⟩, ⟨"zlib", "1.2.13", "", ""⟩],
    binaries := [appBin, zlibBin] }

/-- A boost binary whose stored graph references a zlib binary id that was
never ingested. -/
def boostBin : BinaryPackage :=
  { baseBin with
      pkgName := "boost"
      version := "1.81.0"
      package_id := "def456"
      file_size := 200
      dependency_graph := some
        [("0", ⟨some "boost/1.81.0", some "def456"⟩),
         ("1", ⟨some "zlib/1.2.13", some "abc123"⟩)] }

/-- Catalog for the missing-dependency scenario: zlib is absent. -/
def catC5 : Catalog :=
  { packages := [⟨"boost", "", "", 0⟩], versions := [⟨"boost", "1.81.0", "", ""⟩],
    binaries := [boostBin] }

/-- A binary row that exists in the catalog but has no uploaded file. -/
def binNoFile : BinaryPackage :=
  { baseBin with
      pkgName := "zlib"
      version := "1.2.13"
      package_id := "abc123" }

/-- Catalog for the direct-download counter scenario. -/
def catC10 : Catalog :=
  { packages := [⟨"zlib", "", "", 5⟩], versions := [⟨"zlib", "1.2.13", "", ""⟩],
    binaries := [binNoFile] }

/-- The empty catalog. -/
def emptyCat : Catalog := ⟨[], [], []⟩

/-- A concrete instantiation of the external collaborators, used to evaluate
the upload model on closed inputs. -/
def extEx : UploadExt :=
  { sha256 := fun bs => "sha-" ++ toString bs.length,
    md5hex16 := fun _ => "0123456789abcdef",
    parse_meta := fun _ => ⟨"", "Unknown", []⟩,
    extract_settings := fun _ => ⟨"Linux", "x86_64", "gcc", "11", "Release"⟩ }

/-- An upload of a brand-new `(package, version)` pair with both payloads
present and a resolver-assigned package_id. -/
def reqC1 : UploadRequest :=
  { recipe := some "from conan import ConanFile", binary := some [1, 2, 3],
    package_name := some "zlib", version := some "1.2.13",
    package_id := some "abc123", dependency_graph := none, conan_version := none }

/-- Catalog in which `package_id` "abc123" already belongs to a binary of
`zlib/1.2.13`, while `boost/1.0` exists with no binaries. -/
def catC9 : Catalog :=
  { packages := [⟨"zlib", "", "", 0⟩, ⟨"boost", "", "", 0⟩],
    versions := [⟨"zlib", "1.2.13", "", ""⟩, ⟨"boost", "1.0", "", ""⟩],
    binaries := [binNoFile] }

/-- An upload of a boost binary reusing the already-taken package_id
"abc123" under a different `(package, version)`. -/
def reqC9 : UploadRequest :=
  { recipe := some "from conan import ConanFile", binary := some [9, 9],
    package_name := some "boost", version := some "1.0",
    package_id := some "abc123", dependency_graph := none, conan_version := none }

/-- The non-root nodes of a graph, in stored order. -/
def nonRootNodes (nodes : List (String × GraphNode)) : List (String × GraphNode) :=
  nodes.filter (fun p => !(p.1 == "0"))

/-- Every version component of the triples is free of a `#` character,
i.e. has had any `#revision` suffix stripped. -/
def noRevisionSuffix (ts : List (String × String × String)) : Bool :=
  ts.all (fun t => !(t.2.1.toList.contains '#'))

/-- The `files` entry of the main binary in a preview (download_views.py
lines 126-133). -/
def mainFileEntry (n v : String) (b : BinaryPackage) : FileEntry :=
  ⟨n, v, "main", b.package_id, get_config_string b, b.file_size, none⟩

/-- The `files` entry of a dependency that is absent from the catalog
(download_views.py lines 178-186). -/
def missingFileEntry (n v pid : String) : FileEntry :=
  ⟨n, v, "dependency", pid, "Unknown", 0, some (missingNote n v pid)⟩

/-- The `contents` entry of the main binary in a bundle (download_views.py
lines 248-254). -/
def mainBundleEntry (n v : String) (b : BinaryPackage) : BundleEntry :=
  ⟨n, v, "main", b.package_id, get_config_string b, none⟩

/-- The `package_id` column values of the catalog carry no duplicate — the
database invariant declared by `unique=True` (binary_package.py line 10). -/
def packageIdsNodup (cat : Catalog) : Prop :=
  (cat.binaries.map BinaryPackage.package_id).Nodup

instance (cat : Catalog) : Decidable (packageIdsNodup cat) := by
  unfold packageIdsNodup
  infer_instance

/-- An arbitrary preview accumulator used to instantiate step lemmas. -/
def accEx : PreviewData :=
  { package := "w", version := "1",
    platform := ⟨"Linux", "x86_64", "gcc", "11", "Release"⟩, files := [],
    total_size := 0, file_count := 0, resolution_method := "stored_graph",
    error := none, status := 200 }

/-- An arbitrary bundle accumulator used to instantiate step lemmas. -/
def baccEx : BundleAcc := ⟨[], []⟩

/-- A non-root graph node whose reference has no `'/'` separator. -/
def nodeNoSlash : String × GraphNode := ("1", ⟨some "zlibnoslash", some "zid"⟩)

/-- A non-root graph node with a slash reference but no binary id. -/
def nodeNoPid : String × GraphNode := ("2", ⟨some "zlib/1.2.13", none⟩)

/-- A graph with a root node and two well-formed non-root nodes, one version
carrying a `#revision` suffix. -/
def nodesEx : List (String × GraphNode) :=
  [("0", ⟨some "app/1.0", some "rootid"⟩),
   ("1", ⟨some "zlib/1.2.13#abcdef", some "zid"⟩),
   ("2", ⟨some "openssl/3.0", some "oid"⟩)]

/-! ### Helper lemmas -/

theorem updateFirst_map {α : Type _} {β : Type _} (g : α → β) (p : α → Bool) (f : α → α)
    (hf : ∀ x, g (f x) = g x) (l : List α) :
    (updateFirst p f l).map g = l.map g := by
  induction l with
  | nil => rfl
  | cons x xs ih => by_cases h : p x <;> simp [updateFirst, h, hf, ih]

theorem find?_updateFirst {α : Type _} (p : α → Bool) (f : α → α) (l : List α) (x : α)
    (hfind : l.find? p = some x) (hf : ∀ y, p (f y) = p y) :
    (updateFirst p f l).find? p = some (f x) := by
  induction l with
  | nil => simp at hfind
  | cons a as ih =>
    by_cases h : p a
    · rw [List.find?_cons_of_pos _ h] at hfind
      cases hfind
      simp only [updateFirst, if_pos h]
      rw [List.find?_cons_of_pos]
      rw [hf]; exact h
    · rw [List.find?_cons_of_neg _ h] at hfind
      simp only [updateFirst, if_neg h]
      rw [List.find?_cons_of_neg _ h]
      exact ih hfind

theorem filterMap_cons_toList {α : Type _} {β : Type _} (f : α → Option β) (a : α)
    (l : List α) : (a :: l).filterMap f = (f a).toList ++ l.filterMap f := by
  cases h : f a <;> simp [h]

theorem filterMap_cons_sum {α : Type _} (f : α → Option Nat) (a : α) (l : List α) :
    ((a :: l).filterMap f).sum = (f a).getD 0 + (l.filterMap f).sum := by
  cases h : f a <;> simp [h]

theorem filterMap_cons_length {α : Type _} {β : Type _} (f : α → Option β) (a : α)
    (l : List α) :
    ((a :: l).filterMap f).length = (f a).toList.length + (l.filterMap f).length := by
  cases h : f a <;> simp [h, Nat.add_comm]

theorem splitFirstAux_isSome (sep : Char) (l : List Char) :
    (splitFirstAux sep l).isSome = l.contains sep := by
  induction l with
  | nil => rfl
  | cons c cs ih =>
    by_cases h : c = sep
    · subst h; simp [splitFirstAux, List.contains_cons]
    · have hb : (sep == c) = false := by simp [Ne.symm h]
      rw [List.contains_cons, hb, Bool.false_or, ← ih]
      cases hr : splitFirstAux sep cs <;> simp [splitFirstAux, h, hr]

theorem splitFirst_isSome (sep : Char) (s : String) :
    (splitFirst sep s).isSome = s.toList.contains sep := by
  rw [← splitFirstAux_isSome sep s.toList]
  unfold splitFirst
  cases hr : splitFirstAux sep s.toList <;> simp [hr]

theorem splitFirst_eq_none (sep : Char) (s : String)
    (h : s.toList.contains sep = false) : splitFirst sep s = none := by
  have := splitFirst_isSome sep s
  rw [h] at this
  exact Option.not_isSome_iff_eq_none.mp (by simp [this])

theorem takeUntilChar_not_mem (sep : Char) (l : List Char) :
    sep ∉ takeUntilChar sep l := by
  induction l with
  | nil => simp [takeUntilChar]
  | cons c cs ih =>
    by_cases h : c = sep
    · subst h; simp [takeUntilChar]
    · simp [takeUntilChar, h, ih, Ne.symm h]

theorem stripRevision_no_hash (s : String) :
    (stripRevision s).toList.contains '#' = false := by
  have he : (stripRevision s).toList = takeUntilChar '#' s.toList := rfl
  rw [he]
  simp [takeUntilChar_not_mem]

theorem previewStep_eq (cat : Catalog) (acc : PreviewData) (p : String × GraphNode) :
    previewStep cat acc p =
      { acc with
        files := acc.files ++ (previewEntry cat p).toList
        total_size := acc.total_size + (previewFound cat p).getD 0
        file_count := acc.file_count + (previewFound cat p).toList.length } := by
  unfold previewStep previewEntry previewFound
  cases hpd : parseDepNode p with
  | none => simp
  | some t =>
    obtain ⟨dn, dv, dpid⟩ := t
    cases hf : findDepBinary cat dn dv dpid <;> simp [hf]

theorem foldl_previewStep (cat : Catalog) (l : List (String × GraphNode)) (acc : PreviewData) :
    l.foldl (previewStep cat) acc =
      { acc with
        files := acc.files ++ l.filterMap (previewEntry cat)
        total_size := acc.total_size + (l.filterMap (previewFound cat)).sum
        file_count := acc.file_count + (l.filterMap (previewFound cat)).length } := by
  induction l generalizing acc with
  | nil => simp
  | cons p t ih =>
    rw [List.foldl_cons, ih, previewStep_eq,
      filterMap_cons_toList (previewEntry cat) p t,
      filterMap_cons_sum (previewFound cat) p t,
      filterMap_cons_length (previewFound cat) p t]
    simp [List.append_assoc, Nat.add_assoc]

theorem bundleStep_eq (cat : Catalog) (acc : BundleAcc) (p : String × GraphNode) :
    bundleStep cat acc p =
      { contents := acc.contents ++ (bundleEntry cat p).toList,
        binaries_to_bundle := acc.binaries_to_bundle ++ (bundleMatch cat p).toList } := by
  unfold bundleStep bundleEntry bundleMatch
  cases hpd : parseDepNode p with
  | none => simp
  | some t =>
    obtain ⟨dn, dv, dpid⟩ := t
    cases hf : findDepBinary cat dn dv dpid <;> simp [hf]

theorem foldl_bundleStep (cat : Catalog) (l : List (String × GraphNode)) (acc : BundleAcc) :
    l.foldl (bundleStep cat) acc =
      { contents := acc.contents ++ l.filterMap (bundleEntry cat),
        binaries_to_bundle := acc.binaries_to_bundle ++ l.filterMap (bundleMatch cat) } := by
  induction l generalizing acc with
  | nil => simp
  | cons p t ih =>
    rw [List.foldl_cons, ih, bundleStep_eq,
      filterMap_cons_toList (bundleEntry cat) p t,
      filterMap_cons_toList (bundleMatch cat) p t]
    simp [List.append_assoc]

/-! ### Claim theorems -/

/-- C1: evaluating the upload endpoint at a failing input. On an empty
catalog, an upload with a non-empty recipe, a non-empty binary, a
package_name and a version — the claim's success conditions, with the
`(package_name, version)` pair not yet in the catalog — does not return the
package_id/sha256/size success payload: the `PackageVersion` creation passes
the non-field keyword `conan_version` and the endpoint answers with the 500
handler, after having created the Package row. -/
theorem C1_upload_new_version_returns_500 :
    upload_package extEx emptyCat reqC1 =
      ({ packages := [⟨"zlib", "", "Unknown", 0⟩], versions := [], binaries := [] },
        .serverError "conan_version is an invalid keyword argument for this function") := by
  rfl

/-- C2 counterexample: for `zlib/1.2.13`, whose only binary is built for
Windows, a default-platform preview or bundle request fails with 404
carrying only the request-echoing error message: the response lists none of
the binaries that exist for the pair (its only list, `files`, is empty),
although one such binary exists. -/
theorem C2_no_diagnostic_counterexample :
    (bundle_preview catC2 "zlib" "1.2.13" none none none none none).2 =
      some { package := "zlib", version := "1.2.13",
             platform := ⟨"Linux", "x86_64", "gcc", "11", "Release"⟩, files := [],
             total_size := 0, file_count := 0, resolution_method := "error",
             error := some "No binary found for zlib/1.2.13 with settings: Linux/x86_64/gcc-11/Release",
             status := 404 } ∧
    (download_bundle catC2 "zlib" "1.2.13" none none none none none).2 =
      .noBinary "No binary found for zlib/1.2.13 with settings: Linux/x86_64/gcc-11/Release"
        ⟨"Linux", "x86_64", "gcc", "11", "Release"⟩ ∧
    (list_binaries_for_version catC2 "zlib" "1.2.13").length = 1 :=
  ⟨rfl, rfl, rfl⟩

/-- C3 counterexample: a stored graph node with a slash reference but no
binary id is not omitted from the preview: it appears in `files` with
binary id defaulted to "unknown", so the plan has two entries, not one. -/
theorem C3_absent_binary_id_not_omitted :
    (bundle_preview catC3 "app" "1.0" none none none none none).2 =
      some { package := "app", version := "1.0",
             platform := ⟨"Linux", "x86_64", "gcc", "11", "Release"⟩,
             files := [mainFileEntry "app" "1.0" appMainNoPid,
                       missingFileEntry "zlib" "1.2.13" "unknown"],
             total_size := 100, file_count := 1,
             resolution_method := "stored_graph", error := none, status := 200 } :=
  rfl

/-- C4 counterexample: a stored graph naming binary id "zid" in two nodes
yields a bundle whose `binaries_to_bundle` carries the zlib binary twice, so
its blob is read and placed into the archive twice, not at most once. -/
theorem C4_duplicate_blob_read_twice :
    (download_bundle catC4 "app" "1.0" none none none none none).2 =
      .bundle
        [mainBundleEntry "app" "1.0" appBin,
         ⟨"zlib", "1.2.13", "dependency", "zid", get_config_string zlibBin, none⟩,
         ⟨"zlib", "1.2.13", "dependency", "zid", get_config_string zlibBin, none⟩]
        [(appBin, "app", "1.0"), (zlibBin, "zlib", "1.2.13"), (zlibBin, "zlib", "1.2.13")] ∧
    bundleBlobReads
        [(appBin, "app", "1.0"), (zlibBin, "zlib", "1.2.13"), (zlibBin, "zlib", "1.2.13")] =
      ["app.tar.gz", "zlib.tar.gz", "zlib.tar.gz"] ∧
    (bundleBlobReads
        [(appBin, "app", "1.0"), (zlibBin, "zlib", "1.2.13"), (zlibBin, "zlib", "1.2.13")]).count
      "zlib.tar.gz" = 2 :=
  ⟨rfl, rfl, rfl⟩

/-- C6 counterexample: a successful bundle download returns the catalog
unchanged; the matched main binary's download counter was 0 before the call
and is still 0 afterwards, so it is not incremented exactly once. -/
theorem C6_bundle_does_not_increment_counter :
    download_bundle catC4 "app" "1.0" none none none none none =
      (catC4, .bundle
        [mainBundleEntry "app" "1.0" appBin,
         ⟨"zlib", "1.2.13", "dependency", "zid", get_config_string zlibBin, none⟩,
         ⟨"zlib", "1.2.13", "dependency", "zid", get_config_string zlibBin, none⟩]
        [(appBin, "app", "1.0"), (zlibBin, "zlib", "1.2.13"), (zlibBin, "zlib", "1.2.13")]) ∧
    appBin.download_count = 0 ∧
    (findDepBinary (download_bundle catC4 "app" "1.0" none none none none none).1
        "app" "1.0" "appid").map BinaryPackage.download_count = some 0 :=
  ⟨rfl, rfl, rfl⟩

/-- C2 (amended): when the package and version exist but no binary matches
the defaulted platform request, both bundle views fail with a 404 response
carrying only the error message that echoes the request; no diagnostic
listing of the existing binaries is included — the preview's `files` list
is empty and its totals are zero. -/
theorem C2_no_matching_binary_error_amended (cat : Catalog) (n v : String)
    (os? arch? compiler? compiler_version? build_type? : Option String) (pf : Platform)
    (hpf : defaultedPlatform os? arch? compiler? compiler_version? build_type? = pf)
    (hp : (findPackage cat n).isSome = true)
    (hv : (findVersion cat n v).isSome = true)
    (hnone : configFilter cat n v pf.os pf.arch pf.compiler pf.compiler_version
      pf.build_type = []) :
    (bundle_preview cat n v os? arch? compiler? compiler_version? build_type?).2 =
      some { package := n, version := v, platform := pf, files := [],
             total_size := 0, file_count := 0, resolution_method := "error",
             error := some (noBinaryMessage n v pf), status := 404 } ∧
    (download_bundle cat n v os? arch? compiler? compiler_version? build_type?).2 =
      .noBinary (noBinaryMessage n v pf) pf := by
  subst hpf
  obtain ⟨p, hp'⟩ := Option.isSome_iff_exists.mp hp
  obtain ⟨pv, hv'⟩ := Option.isSome_iff_exists.mp hv
  constructor
  · unfold bundle_preview
    rw [hp', hv']
    dsimp only
    rw [hnone]
  · unfold download_bundle
    rw [hp', hv']
    dsimp only
    rw [hnone]

/-- C2 witness: the amended behaviour at the Windows-only catalog. -/
theorem C2_amended_witness :
    defaultedPlatform (none : Option String) none none none none =
      ⟨"Linux", "x86_64", "gcc", "11", "Release"⟩ ∧
    (findPackage catC2 "zlib").isSome = true ∧
    (findVersion catC2 "zlib" "1.2.13").isSome = true ∧
    configFilter catC2 "zlib" "1.2.13" "Linux" "x86_64" "gcc" "11" "Release" = [] ∧
    ((bundle_preview catC2 "zlib" "1.2.13" none none none none none).2 =
      some { package := "zlib", version := "1.2.13",
             platform := ⟨"Linux", "x86_64", "gcc", "11", "Release"⟩, files := [],
             total_size := 0, file_count := 0, resolution_method := "error",
             error := some (noBinaryMessage "zlib" "1.2.13"
               ⟨"Linux", "x86_64", "gcc", "11", "Release"⟩), status := 404 } ∧
     (download_bundle catC2 "zlib" "1.2.13" none none none none none).2 =
      .noBinary (noBinaryMessage "zlib" "1.2.13" ⟨"Linux", "x86_64", "gcc", "11", "Release"⟩)
        ⟨"Linux", "x86_64", "gcc", "11", "Release"⟩) :=
  ⟨rfl, by decide, by decide, by decide,
    C2_no_matching_binary_error_amended catC2 "zlib" "1.2.13" none none none none none
      ⟨"Linux", "x86_64", "gcc", "11", "Release"⟩ rfl (by decide) (by decide) (by decide)⟩

/-- C8 (amended): omitted platform dimensions are not wildcards: each is
filled with its fixed default (Linux, x86_64, gcc, 11, Release) and the
lookup exact-matches all five defaulted dimensions — the preview succeeds
with 200 exactly when some binary of the pair matches the fully defaulted
configuration, and answers 404 otherwise. -/
theorem C8_defaulted_dimensions_amended (cat : Catalog) (n v : String)
    (os? arch? compiler? compiler_version? build_type? : Option String) (pf : Platform)
    (hpf : defaultedPlatform os? arch? compiler? compiler_version? build_type? = pf)
    (hp : (findPackage cat n).isSome = true)
    (hv : (findVersion cat n v).isSome = true) :
    ((bundle_preview cat n v os? arch? compiler? compiler_version? build_type?).2).map
        PreviewData.status =
      some (if (configFilter cat n v pf.os pf.arch pf.compiler pf.compiler_version
          pf.build_type).isEmpty then 404 else 200) := by
  subst hpf
  obtain ⟨p, hp'⟩ := Option.isSome_iff_exists.mp hp
  obtain ⟨pv, hv'⟩ := Option.isSome_iff_exists.mp hv
  unfold bundle_preview
  rw [hp', hv']
  dsimp only
  cases hc : configFilter cat n v
      (defaultedPlatform os? arch? compiler? compiler_version? build_type?).os
      (defaultedPlatform os? arch? compiler? compiler_version? build_type?).arch
      (defaultedPlatform os? arch? compiler? compiler_version? build_type?).compiler
      (defaultedPlatform os? arch? compiler? compiler_version? build_type?).compiler_version
      (defaultedPlatform os? arch? compiler? compiler_version? build_type?).build_type with
  | nil => simp
  | cons b bs =>
    dsimp only
    rw [foldl_previewStep]
    simp

/-- C8 witness: supplying only the non-default dimension finds the Windows
binary (status 200) through the defaulted exact-match lookup. -/
theorem C8_witness :
    defaultedPlatform (some "Windows") none none none none =
      ⟨"Windows", "x86_64", "gcc", "11", "Release"⟩ ∧
    (findPackage catC2 "zlib").isSome = true ∧
    (findVersion catC2 "zlib" "1.2.13").isSome = true ∧
    ((bundle_preview catC2 "zlib" "1.2.13" (some "Windows") none none none none).2).map
        PreviewData.status =
      some (if (configFilter catC2 "zlib" "1.2.13" "Windows" "x86_64" "gcc" "11"
          "Release").isEmpty then 404 else 200) :=
  ⟨rfl, by decide, by decide,
    C8_defaulted_dimensions_amended catC2 "zlib" "1.2.13" (some "Windows") none none none none
      ⟨"Windows", "x86_64", "gcc", "11", "Release"⟩ rfl (by decide) (by decide)⟩

/-- C4 (amended): bundle construction does not deduplicate: the bundle list
is the main binary followed by one entry per matching graph-node occurrence
in stored order, so a binary id appearing in several nodes is appended — and
its blob read and placed into the archive — once per occurrence. -/
theorem C4_no_dedup_amended (cat : Catalog) (n v : String)
    (os? arch? compiler? compiler_version? build_type? : Option String) (pf : Platform)
    (mainb : BinaryPackage) (rest : List BinaryPackage)
    (hpf : defaultedPlatform os? arch? compiler? compiler_version? build_type? = pf)
    (hp : (findPackage cat n).isSome = true)
    (hv : (findVersion cat n v).isSome = true)
    (hf : configFilter cat n v pf.os pf.arch pf.compiler pf.compiler_version pf.build_type
      = mainb :: rest) :
    download_bundle cat n v os? arch? compiler? compiler_version? build_type? =
      (cat, .bundle
        (mainBundleEntry n v mainb ::
          (mainb.dependency_graph.getD []).filterMap (bundleEntry cat))
        ((mainb, n, v) ::
          (mainb.dependency_graph.getD []).filterMap (bundleMatch cat))) := by
  subst hpf
  obtain ⟨p, hp'⟩ := Option.isSome_iff_exists.mp hp
  obtain ⟨pv, hv'⟩ := Option.isSome_iff_exists.mp hv
  unfold download_bundle
  rw [hp', hv']
  dsimp only
  rw [hf]
  dsimp only
  rw [foldl_bundleStep]
  simp [mainBundleEntry]

/-- C4 witness: the amended no-dedup shape at the duplicated-node catalog. -/
theorem C4_amended_witness :
    defaultedPlatform (none : Option String) none none none none =
      ⟨"Linux", "x86_64", "gcc", "11", "Release"⟩ ∧
    (findPackage catC4 "app").isSome = true ∧
    (findVersion catC4 "app" "1.0").isSome = true ∧
    configFilter catC4 "app" "1.0" "Linux" "x86_64" "gcc" "11" "Release" = [appBin] ∧
    download_bundle catC4 "app" "1.0" none none none none none =
      (catC4, .bundle
        (mainBundleEntry "app" "1.0" appBin ::
          (appBin.dependency_graph.getD []).filterMap (bundleEntry catC4))
        ((appBin, "app", "1.0") ::
          (appBin.dependency_graph.getD []).filterMap (bundleMatch catC4))) :=
  ⟨rfl, by decide, by decide, by decide,
    C4_no_dedup_amended catC4 "app" "1.0" none none none none none
      ⟨"Linux", "x86_64", "gcc", "11", "Release"⟩ appBin [] rfl
      (by decide) (by decide) (by decide)⟩

/-- C5: a preview whose matched binary's stored graph contains a node that
parses to a `(name, version, binary_id)` triple absent from the catalog
succeeds (status 200) with the missing dependency present in `files` as an
annotated entry of size 0, while `file_count` and `total_size` count only
the main binary and the dependencies that were found. -/
theorem C5_missing_dep_entry (cat : Catalog) (n v : String)
    (os? arch? compiler? compiler_version? build_type? : Option String) (pf : Platform)
    (mainb : BinaryPackage) (rest : List BinaryPackage)
    (nodes : List (String × GraphNode)) (nid : String) (node : GraphNode)
    (dn dv dpid : String)
    (hpf : defaultedPlatform os? arch? compiler? compiler_version? build_type? = pf)
    (hp : (findPackage cat n).isSome = true)
    (hv : (findVersion cat n v).isSome = true)
    (hf : configFilter cat n v pf.os pf.arch pf.compiler pf.compiler_version pf.build_type
      = mainb :: rest)
    (hg : mainb.dependency_graph = some nodes)
    (hmem : (nid, node) ∈ nodes)
    (hparse : parseDepNode (nid, node) = some (dn, dv, dpid))
    (hmiss : findDepBinary cat dn dv dpid = none) :
    (bundle_preview cat n v os? arch? compiler? compiler_version? build_type?).2 =
      some { package := n, version := v, platform := pf,
             files := mainFileEntry n v mainb :: nodes.filterMap (previewEntry cat),
             total_size := mainb.file_size + (nodes.filterMap (previewFound cat)).sum,
             file_count := 1 + (nodes.filterMap (previewFound cat)).length,
             resolution_method := "stored_graph", error := none, status := 200 } ∧
    missingFileEntry dn dv dpid ∈ nodes.filterMap (previewEntry cat) := by
  subst hpf
  obtain ⟨p, hp'⟩ := Option.isSome_iff_exists.mp hp
  obtain ⟨pv, hv'⟩ := Option.isSome_iff_exists.mp hv
  constructor
  · unfold bundle_preview
    rw [hp', hv']
    dsimp only
    rw [hf]
    dsimp only
    rw [hg]
    dsimp only [Option.getD]
    rw [foldl_previewStep]
    simp [mainFileEntry]
  · refine List.mem_filterMap.mpr ⟨(nid, node), hmem, ?_⟩
    simp [previewEntry, hparse, hmiss, missingFileEntry]

/-- C5 witness: the missing-zlib boost catalog exhibits the hypotheses and
the concluded plan shape. -/
theorem C5_witness :
    defaultedPlatform (none : Option String) none none none none =
      ⟨"Linux", "x86_64", "gcc", "11", "Release"⟩ ∧
    (findPackage catC5 "boost").isSome = true ∧
    (findVersion catC5 "boost" "1.81.0").isSome = true ∧
    configFilter catC5 "boost" "1.81.0" "Linux" "x86_64" "gcc" "11" "Release" = [boostBin] ∧
    boostBin.dependency_graph = some
      [("0", ⟨some "boost/1.81.0", some "def456"⟩),
       ("1", ⟨some "zlib/1.2.13", some "abc123"⟩)] ∧
    ("1", (⟨some "zlib/1.2.13", some "abc123"⟩ : GraphNode)) ∈
      [(("0" : String), (⟨some "boost/1.81.0", some "def456"⟩ : GraphNode)),
       ("1", ⟨some "zlib/1.2.13", some "abc123"⟩)] ∧
    parseDepNode ("1", ⟨some "zlib/1.2.13", some "abc123"⟩) =
      some ("zlib", "1.2.13", "abc123") ∧
    findDepBinary catC5 "zlib" "1.2.13" "abc123" = none ∧
    ((bundle_preview catC5 "boost" "1.81.0" none none none none none).2 =
      some { package := "boost", version := "1.81.0",
             platform := ⟨"Linux", "x86_64", "gcc", "11", "Release"⟩,
             files := mainFileEntry "boost" "1.81.0" boostBin ::
               [(("0" : String), (⟨some "boost/1.81.0", some "def456"⟩ : GraphNode)),
                ("1", ⟨some "zlib/1.2.13", some "abc123"⟩)].filterMap (previewEntry catC5),
             total_size := boostBin.file_size +
               ([(("0" : String), (⟨some "boost/1.81.0", some "def456"⟩ : GraphNode)),
                 ("1", ⟨some "zlib/1.2.13", some "abc123"⟩)].filterMap
                   (previewFound catC5)).sum,
             file_count := 1 +
               ([(("0" : String), (⟨some "boost/1.81.0", some "def456"⟩ : GraphNode)),
                 ("1", ⟨some "zlib/1.2.13", some "abc123"⟩)].filterMap
                   (previewFound catC5)).length,
             resolution_method := "stored_graph", error := none, status := 200 } ∧
     missingFileEntry "zlib" "1.2.13" "abc123" ∈
       [(("0" : String), (⟨some "boost/1.81.0", some "def456"⟩ : GraphNode)),
        ("1", ⟨some "zlib/1.2.13", some "abc123"⟩)].filterMap (previewEntry catC5)) :=
  ⟨rfl, by decide, by decide, by decide, rfl, by decide, by decide, by decide,
    C5_missing_dep_entry catC5 "boost" "1.81.0" none none none none none
      ⟨"Linux", "x86_64", "gcc", "11", "Release"⟩ boostBin []
      [("0", ⟨some "boost/1.81.0", some "def456"⟩), ("1", ⟨some "zlib/1.2.13", some "abc123"⟩)]
      "1" ⟨some "zlib/1.2.13", some "abc123"⟩ "zlib" "1.2.13" "abc123"
      rfl (by decide) (by decide) (by decide) rfl (by decide) (by decide) (by decide)⟩

/-- C8 counterexample: the catalog holds a binary matching every supplied
dimension of a request that omits `os` (the binary is a Windows build and
only the omitted dimension differs), yet the preview answers 404 because
the omitted dimension is filled with the default "Linux" rather than
treated as a wildcard. -/
theorem C8_omitted_dimension_not_wildcard :
    ((bundle_preview catC2 "zlib" "1.2.13" none (some "x86_64") (some "gcc") (some "11")
        (some "Release")).2).map PreviewData.status = some 404 ∧
    zlibWin ∈ catC2.binaries ∧
    zlibWin.pkgName = "zlib" ∧ zlibWin.version = "1.2.13" ∧
    zlibWin.arch = "x86_64" ∧ zlibWin.compiler = "gcc" ∧
    zlibWin.compiler_version = "11" ∧ zlibWin.build_type = "Release" :=
  ⟨rfl, by decide, rfl, rfl, rfl, rfl, rfl, rfl⟩

/-- C3 (amended): in the shared dependency loop of bundle preview and
bundle download, a non-root node whose reference lacks `'/'` is silently
omitted (the step leaves the accumulator unchanged and never fails), but a
non-root node whose binary id is absent is not omitted — it is parsed with
binary id defaulted to "unknown" and processed like any other node. -/
theorem C3_node_skipping_amended (cat : Catalog) (acc : PreviewData) (bacc : BundleAcc)
    (p q : String × GraphNode)
    (hrootp : (p.1 == "0") = false)
    (hnoslash : (p.2.ref.getD "").toList.contains '/' = false)
    (hrootq : (q.1 == "0") = false)
    (hslash : (q.2.ref.getD "").toList.contains '/' = true)
    (hnopid : q.2.package_id = none) :
    parseDepNode p = none ∧ previewStep cat acc p = acc ∧ bundleStep cat bacc p = bacc ∧
    parseDepNode q = some (extractTriple q) ∧ (extractTriple q).2.2 = "unknown" := by
  have hsp : splitFirst '/' (p.2.ref.getD "") = none := splitFirst_eq_none _ _ hnoslash
  have hpd : parseDepNode p = none := by
    unfold parseDepNode
    rw [hrootp]
    simp [hsp]
  have hq : (splitFirst '/' (q.2.ref.getD "")).isSome = true := by
    rw [splitFirst_isSome]; exact hslash
  obtain ⟨⟨qn, qv⟩, hsq⟩ := Option.isSome_iff_exists.mp hq
  refine ⟨hpd, ?_, ?_, ?_, ?_⟩
  · simp [previewStep, hpd]
  · simp [bundleStep, hpd]
  · unfold parseDepNode extractTriple
    rw [hrootq]
    simp [hsq]
  · unfold extractTriple
    rw [hsq]
    simp [hnopid]

/-- C3 witness: the two node shapes at concrete inputs. -/
theorem C3_amended_witness :
    (nodeNoSlash.1 == "0") = false ∧
    ((nodeNoSlash.2.ref.getD "").toList.contains '/') = false ∧
    (nodeNoPid.1 == "0") = false ∧
    ((nodeNoPid.2.ref.getD "").toList.contains '/') = true ∧
    nodeNoPid.2.package_id = none ∧
    (parseDepNode nodeNoSlash = none ∧
     previewStep catC3 accEx nodeNoSlash = accEx ∧
     bundleStep catC3 baccEx nodeNoSlash = baccEx ∧
     parseDepNode nodeNoPid = some (extractTriple nodeNoPid) ∧
     (extractTriple nodeNoPid).2.2 = "unknown") :=
  ⟨by decide, by decide, by decide, by decide, by decide,
    C3_node_skipping_amended catC3 accEx baccEx nodeNoSlash nodeNoPid
      (by decide) (by decide) (by decide) (by decide) (by decide)⟩

/-- C6 (amended): neither bundle operation mutates any persistent state:
both bundle preview and bundle download return the catalog exactly as
received — in particular no download counter is incremented. -/
theorem C6_no_state_mutation_amended (cat : Catalog) (n v : String)
    (os? arch? compiler? compiler_version? build_type? : Option String) :
    (bundle_preview cat n v os? arch? compiler? compiler_version? build_type?).1 = cat ∧
    (download_bundle cat n v os? arch? compiler? compiler_version? build_type?).1 = cat := by
  constructor
  · unfold bundle_preview
    cases findPackage cat n with
    | none => rfl
    | some p =>
      cases findVersion cat n v with
      | none => rfl
      | some pv =>
        dsimp only
        cases configFilter cat n v
            (defaultedPlatform os? arch? compiler? compiler_version? build_type?).os
            (defaultedPlatform os? arch? compiler? compiler_version? build_type?).arch
            (defaultedPlatform os? arch? compiler? compiler_version? build_type?).compiler
            (defaultedPlatform os? arch? compiler? compiler_version? build_type?).compiler_version
            (defaultedPlatform os? arch? compiler? compiler_version? build_type?).build_type with
        | nil => rfl
        | cons b bs => rfl
  · unfold download_bundle
    cases findPackage cat n with
    | none => rfl
    | some p =>
      cases findVersion cat n v with
      | none => rfl
      | some pv =>
        dsimp only
        cases configFilter cat n v
            (defaultedPlatform os? arch? compiler? compiler_version? build_type?).os
            (defaultedPlatform os? arch? compiler? compiler_version? build_type?).arch
            (defaultedPlatform os? arch? compiler? compiler_version? build_type?).compiler
            (defaultedPlatform os? arch? compiler? compiler_version? build_type?).compiler_version
            (defaultedPlatform os? arch? compiler? compiler_version? build_type?).build_type with
        | nil => rfl
        | cons b bs => rfl

/-- Root nodes contribute nothing to the flat triple list. -/
theorem parseDepNode_root (p : String × GraphNode) (hr : (p.1 == "0") = true) :
    parseDepNode p = none := by
  unfold parseDepNode
  rw [hr]
  simp

/-- A non-root node with a slash-containing reference contributes exactly
its extracted triple. -/
theorem parseDepNode_wellFormed (p : String × GraphNode) (hr : (p.1 == "0") = false)
    (hs : (p.2.ref.getD "").toList.contains '/' = true) :
    parseDepNode p = some (extractTriple p) := by
  have hq : (splitFirst '/' (p.2.ref.getD "")).isSome = true := by
    rw [splitFirst_isSome]; exact hs
  obtain ⟨⟨a, b⟩, hsq⟩ := Option.isSome_iff_exists.mp hq
  unfold parseDepNode extractTriple
  rw [hr]
  simp [hsq]

/-- The flat triple list never carries a `#` in a version component. -/
theorem noRevisionSuffix_flatten (nodes : List (String × GraphNode)) :
    noRevisionSuffix (flatten nodes) = true := by
  rw [noRevisionSuffix, List.all_eq_true]
  intro t ht
  obtain ⟨p, hp, hpd⟩ := List.mem_filterMap.mp ht
  unfold parseDepNode at hpd
  by_cases hr : (p.1 == "0") = true
  · rw [hr] at hpd; simp at hpd
  · rw [Bool.not_eq_true] at hr
    rw [hr] at hpd
    cases hs : splitFirst '/' (p.2.ref.getD "") with
    | none => rw [hs] at hpd; simp at hpd
    | some pr =>
      obtain ⟨a, b⟩ := pr
      rw [hs] at hpd
      have hpd' : (a, stripRevision b, p.2.package_id.getD "unknown") = t := by
        simpa using hpd
      subst hpd'
      dsimp only
      rw [stripRevision_no_hash]
      rfl

/-- Flattening a graph whose non-root nodes are all well-formed maps each
non-root node to its triple, in stored order. -/
theorem flatten_eq_of_wellFormed (nodes : List (String × GraphNode))
    (hwf : wellFormedNodes nodes = true) :
    flatten nodes = (nonRootNodes nodes).map extractTriple := by
  induction nodes with
  | nil => rfl
  | cons p t ih =>
    rw [wellFormedNodes, List.all_cons, Bool.and_eq_true] at hwf
    obtain ⟨hp, ht⟩ := hwf
    have ih' := ih ht
    by_cases hr : (p.1 == "0") = true
    · rw [flatten, List.filterMap_cons, parseDepNode_root p hr]
      rw [nonRootNodes, List.filter_cons, hr]
      simpa [flatten, nonRootNodes] using ih'
    · rw [Bool.not_eq_true] at hr
      rw [Bool.or_eq_true, Bool.and_eq_true] at hp
      rcases hp with hp | ⟨hs, _⟩
      · rw [hr] at hp; cases hp
      · rw [flatten, List.filterMap_cons, parseDepNode_wellFormed p hr hs]
        rw [nonRootNodes, List.filter_cons, hr]
        simpa [flatten, nonRootNodes] using ih'

/-- C7: flattening a graph with a root node and N well-formed non-root
nodes (slash reference and present binary id) yields exactly the N triples
of the non-root nodes, in the graph's stored order, with the root excluded
and every version component stripped of any `#revision` suffix. -/
theorem C7_flatten_wellformed (nodes : List (String × GraphNode))
    (hwf : wellFormedNodes nodes = true) :
    flatten nodes = (nonRootNodes nodes).map extractTriple ∧
    (flatten nodes).length = (nonRootNodes nodes).length ∧
    noRevisionSuffix (flatten nodes) = true := by
  have hmain := flatten_eq_of_wellFormed nodes hwf
  exact ⟨hmain, by rw [hmain, List.length_map], noRevisionSuffix_flatten nodes⟩

/-- C7 witness: a three-node graph (root plus two well-formed nodes, one
with a revision suffix). -/
theorem C7_witness :
    wellFormedNodes nodesEx = true ∧
    (flatten nodesEx = (nonRootNodes nodesEx).map extractTriple ∧
     (flatten nodesEx).length = (nonRootNodes nodesEx).length ∧
     noRevisionSuffix (flatten nodesEx) = true) :=
  ⟨by decide, C7_flatten_wellformed nodesEx (by decide)⟩

/-- Package upserts never touch the binaries table. -/
theorem upsert_package_binaries (cat : Catalog) (n d li : String) :
    (upsert_package cat n d li).binaries = cat.binaries := by
  unfold upsert_package
  cases findPackage cat n with
  | none => rfl
  | some p =>
    by_cases hd : d ≠ ""
    · rw [if_pos hd]
    · rw [if_neg hd]

/-- The dependency-loop package upsert never touches the binaries table. -/
theorem ensureDepPackage_binaries (cat : Catalog) (dn : String) :
    (ensureDepPackage cat dn).binaries = cat.binaries := by
  unfold ensureDepPackage
  cases findPackage cat dn <;> rfl

/-- The dependency-loop version upsert never touches the binaries table. -/
theorem ensureDepVersion_binaries (cat : Catalog) (dn dv : String) :
    (ensureDepVersion cat dn dv).binaries = cat.binaries := by
  unfold ensureDepVersion
  cases findVersion cat dn dv <;> rfl

/-- The dependency-creation loop never touches the binaries table. -/
theorem processDeps_binaries (l : List String) (cat : Catalog) :
    ((processDeps cat l).1).binaries = cat.binaries := by
  induction l generalizing cat with
  | nil => rfl
  | cons d rest ih =>
    unfold processDeps
    cases splitFirst '/' d with
    | none => exact ih cat
    | some pr =>
      obtain ⟨dn, dv⟩ := pr
      dsimp only
      rw [ensureDepVersion_binaries, ensureDepPackage_binaries]

/-- If no row carries `pid`, `pid` is not among the mapped ids. -/
theorem not_mem_packageIds_of_not_taken (cat : Catalog) (pid : String)
    (h : packageIdTaken cat pid = false) :
    pid ∉ cat.binaries.map BinaryPackage.package_id := by
  intro hmem
  obtain ⟨b, hb, hbe⟩ := List.mem_map.mp hmem
  have hany : cat.binaries.any (fun b => b.package_id == pid) = true :=
    List.any_eq_true.mpr ⟨b, hb, by simp [hbe]⟩
  rw [packageIdTaken] at h
  rw [h] at hany
  cases hany

/-- A successful binary upsert preserves global `package_id` uniqueness:
the overwrite path keeps every id, and the create path is guarded by the
unique-constraint check. -/
theorem upsert_binary_nodup (cat : Catalog) (n v pid : String) (st : ConanSettings)
    (sh : String) (sz : Nat) (g : Option (List (String × GraphNode))) (cat' : Catalog)
    (h : packageIdsNodup cat)
    (hu : upsert_binary cat n v pid st sh sz g = some cat') :
    packageIdsNodup cat' := by
  unfold upsert_binary at hu
  by_cases hex : (findDepBinary cat n v pid).isSome = true
  · rw [if_neg (by simp [hex]), if_pos hex] at hu
    obtain rfl := (Option.some.inj hu).symm
    show (List.map BinaryPackage.package_id
      (updateFirst (binKey n v pid) (setBinUpload (blobKeyName n v pid) sh sz g)
        cat.binaries)).Nodup
    rw [updateFirst_map BinaryPackage.package_id (binKey n v pid)
      (setBinUpload (blobKeyName n v pid) sh sz g) (fun x => rfl) cat.binaries]
    exact h
  · by_cases htk : packageIdTaken cat pid = true
    · rw [if_pos ⟨hex, htk⟩] at hu
      cases hu
    · rw [Bool.not_eq_true] at htk
      rw [if_neg (by simp [htk]), if_neg hex] at hu
      obtain rfl := (Option.some.inj hu).symm
      show (List.map BinaryPackage.package_id
        (updateFirst (binKey n v pid) (setBinUpload (blobKeyName n v pid) sh sz g)
          (newBinaryRow n v pid st sh sz g :: cat.binaries))).Nodup
      rw [updateFirst_map BinaryPackage.package_id (binKey n v pid)
        (setBinUpload (blobKeyName n v pid) sh sz g) (fun x => rfl)
        (newBinaryRow n v pid st sh sz g :: cat.binaries), List.map_cons]
      exact List.nodup_cons.mpr ⟨not_mem_packageIds_of_not_taken cat pid htk, h⟩

/-- Validated ingestion preserves global `package_id` uniqueness on every
path, error paths included. -/
theorem ingest_validated_nodup (ext : UploadExt) (cat : Catalog) (rc : String)
    (bb : List Nat) (n v : String) (pid? : Option String)
    (g : Option (List (String × GraphNode))) (h : packageIdsNodup cat) :
    packageIdsNodup (ingest_validated ext cat rc bb n v pid? g).1 := by
  have h2 : packageIdsNodup (upsert_package cat n (ext.parse_meta rc).description
      (ext.parse_meta rc).license) := by
    unfold packageIdsNodup
    rw [upsert_package_binaries]
    exact h
  unfold ingest_validated
  dsimp only
  split
  · exact h2
  · split
    · exact h2
    · next cat5 hub =>
      have h5 : packageIdsNodup cat5 := by
        refine upsert_binary_nodup _ _ _ _ _ _ _ _ _ ?_ hub
        exact h2
      split
      · next cat6 hpd =>
        have h6 := processDeps_binaries (ext.parse_meta rc).dependencies cat5
        rw [hpd] at h6
        unfold packageIdsNodup
        rw [h6]
        exact h5
      · next cat6 hpd =>
        have h6 := processDeps_binaries (ext.parse_meta rc).dependencies cat5
        rw [hpd] at h6
        unfold packageIdsNodup
        rw [h6]
        exact h5

/-- C9: the catalog never ends up with two BinaryPackage rows sharing a
package_id: on any upload against a catalog whose `package_id` column is
duplicate-free, the resulting catalog is duplicate-free as well — creating
a row under a taken id fails with the unique-constraint error, and
re-uploads collapse onto the existing row. -/
theorem C9_package_id_unique_preserved (ext : UploadExt) (cat : Catalog)
    (req : UploadRequest) (h : packageIdsNodup cat) :
    packageIdsNodup (upload_package ext cat req).1 := by
  unfold upload_package
  split
  · exact h
  · split
    · exact h
    · split
      · exact h
      · exact h
      · split
        · exact h
        · exact ingest_validated_nodup _ _ _ _ _ _ _ _ h

/-- C9 witness: uploading with the already-taken id "abc123" under a
different version preserves uniqueness (the attempt fails, no second row). -/
theorem C9_witness :
    packageIdsNodup catC9 ∧ packageIdsNodup (upload_package extEx catC9 reqC9).1 :=
  ⟨by decide, C9_package_id_unique_preserved extEx catC9 reqC9 (by decide)⟩

/-- C10: a direct binary download of an existing row increments the row's
and the owning package's download counters by exactly one and persists
both, independently of the file check; when no file was ever uploaded the
response is the 404 placeholder, with the counters already incremented. -/
theorem C10_download_binary_increments (cat : Catalog) (n v pid : String)
    (p : Package) (b : BinaryPackage)
    (hp : findPackage cat n = some p)
    (hv : (findVersion cat n v).isSome = true)
    (hb : findDepBinary cat n v pid = some b) :
    (download_binary cat n v pid).1.binaries =
      updateFirst (binKey n v pid) bumpBinaryCount cat.binaries ∧
    (download_binary cat n v pid).1.packages =
      updateFirst (pkgKey n) bumpPackageCount cat.packages ∧
    findDepBinary (download_binary cat n v pid).1 n v pid = some (bumpBinaryCount b) ∧
    findPackage (download_binary cat n v pid).1 n = some (bumpPackageCount p) ∧
    (b.binary_file = none → (download_binary cat n v pid).2 = .placeholder404) := by
  obtain ⟨pv, hv'⟩ := Option.isSome_iff_exists.mp hv
  unfold download_binary
  rw [hp, hv', hb]
  dsimp only
  cases hbf : b.binary_file with
  | none =>
    refine ⟨rfl, rfl, ?_, ?_, fun _ => rfl⟩
    · exact find?_updateFirst (binKey n v pid) bumpBinaryCount cat.binaries b hb
        (fun y => rfl)
    · exact find?_updateFirst (pkgKey n) bumpPackageCount cat.packages p hp
        (fun y => rfl)
  | some fname =>
    refine ⟨rfl, rfl, ?_, ?_, fun hcontra => by simp at hcontra⟩
    · exact find?_updateFirst (binKey n v pid) bumpBinaryCount cat.binaries b hb
        (fun y => rfl)
    · exact find?_updateFirst (pkgKey n) bumpPackageCount cat.packages p hp
        (fun y => rfl)

/-- C10 witness: the no-file row "abc123": counters incremented, response is
the 404 placeholder. -/
theorem C10_witness :
    findPackage catC10 "zlib" = some ⟨"zlib", "", "", 5⟩ ∧
    (findVersion catC10 "zlib" "1.2.13").isSome = true ∧
    findDepBinary catC10 "zlib" "1.2.13" "abc123" = some binNoFile ∧
    ((download_binary catC10 "zlib" "1.2.13" "abc123").1.binaries =
        updateFirst (binKey "zlib" "1.2.13" "abc123") bumpBinaryCount catC10.binaries ∧
      (download_binary catC10 "zlib" "1.2.13" "abc123").1.packages =
        updateFirst (pkgKey "zlib") bumpPackageCount catC10.packages ∧
      findDepBinary (download_binary catC10 "zlib" "1.2.13" "abc123").1
          "zlib" "1.2.13" "abc123" = some (bumpBinaryCount binNoFile) ∧
      findPackage (download_binary catC10 "zlib" "1.2.13" "abc123").1 "zlib" =
        some (bumpPackageCount ⟨"zlib", "", "", 5⟩) ∧
      (binNoFile.binary_file = none →
        (download_binary catC10 "zlib" "1.2.13" "abc123").2 = .placeholder404)) :=
  ⟨by decide, by decide, by decide,
    C10_download_binary_increments catC10 "zlib" "1.2.13" "abc123"
      ⟨"zlib", "", "", 5⟩ binNoFile (by decide) (by decide) (by decide)⟩

end ConanCrates
